import Mathlib

set_option maxRecDepth 4000

/-
Verification of the SCD Message Center routing/subscription core
(src/msgcenter.cpp, class SCDMsgCenter) against its specification.

The C++ class is shallowly embedded below.  Strings are Lean strings;
the QString operations used by the source (split on a single space
skipping empty parts, trimmed, toLower, remove(0,1), at(0), join) are
embedded as executable functions over the underlying character lists,
restricted to the ASCII behaviour the protocol exercises.  A QList
access with an out-of-range index (operator[], at, replace) is
undefined behaviour in Qt; the embedding makes every such access
explicit by returning Option.none from the operation that would
perform it.
-/

namespace SCDMsgCenter

/-- Whitespace test matching QChar::isSpace on ASCII input:
space, tab, LF, VT, FF, CR. -/
def qIsSpace (c : Char) : Bool :=
  c = ' ' || c = '\t' || c = '\n' || c = '\x0b' || c = '\x0c' || c = '\r'

/-- Lower-casing of one character, matching QChar::toLower on ASCII input. -/
def qCharToLower (c : Char) : Char :=
  if 'A' ≤ c && c ≤ 'Z' then Char.ofNat (c.toNat + 32) else c

/-- QString::toLower on ASCII input. -/
def qToLower (s : String) : String :=
  ⟨s.data.map qCharToLower⟩

/-- Leading and trailing whitespace removal on a character list. -/
def qTrimList (l : List Char) : List Char :=
  ((l.dropWhile qIsSpace).reverse.dropWhile qIsSpace).reverse

/-- QString::trimmed on ASCII input. -/
def qTrim (s : String) : String :=
  ⟨qTrimList s.data⟩

/-- Splitting a character list at every occurrence of the space
character; the accumulator holds the current token reversed.  Empty
pieces are kept here and dropped by qSplitSkipEmpty. -/
def splitSp : List Char → List Char → List (List Char)
  | [], acc => [acc.reverse]
  | c :: cs, acc =>
    if c = ' ' then acc.reverse :: splitSp cs [] else splitSp cs (c :: acc)

/-- QString::split(" ", QString::SkipEmptyParts), as used at
msgcenter.cpp line 329. -/
def qSplitSkipEmpty (s : String) : List String :=
  ((splitSp s.data []).filter (fun t => !t.isEmpty)).map (fun t => (⟨t⟩ : String))

/-- Client record of SCDMsgCenter (declared in msgcenter.h, which only
its uses in msgcenter.cpp document): socket descriptor, display name,
user name, admin flag, mode (0 = console, 1 = spying), spied sender,
and the index field that getClient fills in.  The integer fields a
default-constructed C++ record leaves indeterminate are modelled as 0;
only the index field of a default record is ever read, and getClient
always sets it. -/
structure Client where
  socketDescriptor : Int
  name : String
  user : String
  admin : Nat
  mode : Nat
  Sender : String
  index : Int
deriving Repr, DecidableEq

/-- Result of the default Client constructor, before getClient marks it
not-found by setting index to -1. -/
def defaultClient : Client :=
  { socketDescriptor := 0, name := "", user := "", admin := 0, mode := 0,
    Sender := "", index := 0 }

/-- State of one SCDMsgCenter instance: the client list and the sender
registry, both in insertion order. -/
structure MCState where
  clients : List Client
  senders : List String
deriving Repr, DecidableEq

/-- Outbound effects of the core: sendMessageToClient (the
messageToClient signal) and the commandToSender signal. -/
inductive Effect where
  | toClient (msg : String) (sd : Int)
  | toSender (cmd : String) (sender : String)
deriving Repr, DecidableEq

/-- Modelled from the spec: the LF constant used at msgcenter.cpp line
150 is defined in msgcenter.h, which is not part of the sources; the
spec describes it as one line-separator character prepended before the
sender label. -/
def LF : String := "\n"

/-- Loop body of SCDMsgCenter::getClient: scan the client list for the
socket descriptor, returning the record with its index field set to
its position; the parameter n is the index of the head of the list
being scanned. -/
def getClientAux : List Client → Int → Nat → Option Client
  | [], _, _ => none
  | c :: cs, sd, n =>
    if c.socketDescriptor = sd then some { c with index := (n : Int) }
    else getClientAux cs sd (n + 1)

/-- SCDMsgCenter::getClient: the found record with its index, or a
default record with index -1. -/
def getClient (st : MCState) (sd : Int) : Client :=
  (getClientAux st.clients sd 0).getD { defaultClient with index := -1 }

/-- SCDMsgCenter::getHelpString, verbatim. -/
def getHelpString : String :=
  " Command Help:\n\n" ++
  "   - list                    => get a list of message senders\n" ++
  "   - spy <sender id>         => receive message only by sender identified by sender id\n" ++
  "   - <cr> (carriage return)  => stop realtime message receiving and show help\n" ++
  "   - help                    => show this help\n" ++
  "   - exit                    => close connection to message center\n" ++
  "   - @<sender id> <command>  => sends a string to sender by message center\n" ++
  "   - ping                    => message center reply pong\n" ++
  "   - <unkown command>        => return echo of command\n"

/-- SCDMsgCenter::getPrompt: prompt for a known client, empty string
otherwise. -/
def getPrompt (st : MCState) (sd : Int) : String :=
  let client := getClient st sd
  if client.index > -1 then "\n" ++ client.name ++ ":> " else ""

/-- QList::replace(i, v): defined only for a valid index; an
out-of-range index is undefined behaviour, modelled as none. -/
def replaceAt (l : List Client) (i : Int) (c : Client) : Option (List Client) :=
  if 0 ≤ i ∧ i < (l.length : Int) then some (l.set i.toNat c) else none

/-- SCDMsgCenter::registerClient: append a new client record with its
defaults and greet it, or do nothing if the descriptor is already
registered.  Returns the new state and the emitted effects. -/
def registerClient (st : MCState) (sd : Int) : MCState × List Effect :=
  let client := getClient st sd
  if client.index = -1 then
    let client :=
      { client with
          socketDescriptor := sd, name := "Host-" ++ toString sd,
          user := "Anonymous", admin := 0, mode := 0 }
    let st := { st with clients := st.clients ++ [client] }
    let msg := "\n\nMessage Center 1.0\n\n" ++ getHelpString ++ getPrompt st sd
    (st, [Effect.toClient msg sd])
  else
    (st, [])

/-- SCDMsgCenter::registerMessageSender: append the sender if absent. -/
def registerMessageSender (st : MCState) (sender : String) : MCState :=
  if st.senders.contains sender then st
  else { st with senders := st.senders ++ [sender] }

/-- SCDMsgCenter::unregisterClient: remove the client record if found. -/
def unregisterClient (st : MCState) (sd : Int) : MCState :=
  let client := getClient st sd
  if client.index > -1 then
    { st with clients := st.clients.eraseIdx client.index.toNat }
  else st

/-- SCDMsgCenter::processMessage: forward the composed message to every
client spying the sender, in client-list order. -/
def processMessage (st : MCState) (msg sender : String) : List Effect :=
  st.clients.filterMap (fun client =>
    if client.Sender = sender ∧ client.mode = 1 then
      some (Effect.toClient msg client.socketDescriptor)
    else none)

/-- SCDMsgCenter::postMessage: compose the outbound text and hand it to
processMessage. -/
def postMessage (st : MCState) (msg sender : String) (prependNewLine : Bool) :
    List Effect :=
  let msg := sender ++ ": " ++ msg
  let msg := if prependNewLine then LF ++ msg else msg
  processMessage st msg sender

/-- SCDMsgCenter::processCommand.  Every QList and QString access the
source performs without a bounds guard (list[0] on the token list,
at(0) on the trimmed verb, QList::replace at the index produced by
getClient) is modelled exactly where the source performs it, yielding
none when the access is out of range. -/
def processCommand (st : MCState) (cmd0 : String) (sd : Int) :
    Option (MCState × List Effect) :=
  let client := getClient st sd
  match qSplitSkipEmpty cmd0 with
  | [] => none
  | tok :: toks =>
    let cmd := qToLower tok
    if cmd = "\r\n" ∨ cmd = "\n" then
      let client := { client with mode := 0 }
      match replaceAt st.clients client.index client with
      | none => none
      | some cs =>
        let st := { st with clients := cs }
        some (st, [Effect.toClient ("\n" ++ getHelpString ++ getPrompt st sd) sd])
    else if qTrim cmd = "spy" then
      match toks with
      | [] => some (st, [])
      | arg :: _ =>
        let sender := qTrim arg
        if st.senders.contains sender then
          let client := { client with Sender := sender, mode := 1 }
          match replaceAt st.clients client.index client with
          | none => none
          | some cs => some ({ st with clients := cs }, [])
        else
          some (st, [Effect.toClient
            ("\nSender not found: " ++ sender ++ getPrompt st sd) sd])
    else if qTrim cmd = "exit" then
      some (st, [Effect.toClient cmd sd])
    else if qTrim cmd = "list" then
      let msg := st.senders.foldl (fun m x => m ++ "   - " ++ x ++ "\n") "\n"
      some (st, [Effect.toClient (msg ++ getPrompt st sd) sd])
    else if qTrim cmd = "ping" then
      some (st, [Effect.toClient "pong" sd])
    else if qTrim cmd = "help" then
      some (st, [Effect.toClient ("\n" ++ getHelpString ++ getPrompt st sd) sd])
    else
      match (qTrim cmd).data with
      | [] => none
      | c0 :: _ =>
        if c0 = '@' then
          let sender : String := ⟨(qTrim cmd).data.drop 1⟩
          let cmd2 := qTrim (String.intercalate " " toks)
          if st.senders.contains sender then
            let client := { client with Sender := sender, mode := 1 }
            match replaceAt st.clients client.index client with
            | none => none
            | some cs => some ({ st with clients := cs }, [Effect.toSender cmd2 sender])
          else
            some (st, [Effect.toClient
              ("\nSender not found: " ++ sender ++ getPrompt st sd) sd])
        else
          if client.index > -1 then some (st, [Effect.toClient cmd sd])
          else some (st, [])

/-- Position bounds of a client found by the getClient scan: the index
recorded in the result lies between the start position of the scan and
the end of the list. -/
theorem getClientAux_bounds (l : List Client) (sd : Int) (n : Nat) (c : Client)
    (h : getClientAux l sd n = some c) :
    (n : Int) ≤ c.index ∧ c.index < (n : Int) + l.length := by
  induction l generalizing n with
  | nil => simp [getClientAux] at h
  | cons a l ih =>
    rw [getClientAux] at h
    by_cases ha : a.socketDescriptor = sd
    · rw [if_pos ha] at h
      cases h
      simp
    · rw [if_neg ha] at h
      have := ih (n + 1) h
      simp only [List.length_cons] at this ⊢
      push_cast at this ⊢
      omega

/-- Replacing at the index produced by a successful getClient scan
started at position 0 is in range and sets that position. -/
theorem replaceAt_of_found (st : MCState) (sd : Int) (c x : Client)
    (h : getClientAux st.clients sd 0 = some c) :
    replaceAt st.clients c.index x = some (st.clients.set c.index.toNat x) := by
  have hb := getClientAux_bounds st.clients sd 0 c h
  rw [replaceAt, if_pos]
  simp at hb
  omega

/-- Unfolding of getClient on a successful scan. -/
theorem getClient_of_found (st : MCState) (sd : Int) (c : Client)
    (h : getClientAux st.clients sd 0 = some c) : getClient st sd = c := by
  rw [getClient, h, Option.getD_some]

/-- A string beginning with the at-sign differs from any string whose
first character is not the at-sign. -/
theorem at_append_ne (s w : String) (hw : w.data.head? ≠ some '@') :
    "@" ++ s ≠ w := by
  intro h
  apply hw
  rw [← h]
  rfl

/-- The spying fan-out loop of processMessage delivers the message to
exactly the clients spying the sender, keeping the list order. -/
theorem filterMap_deliver (cs : List Client) (m s : String) :
    (cs.filterMap (fun client =>
      if client.Sender = s ∧ client.mode = 1 then
        some (Effect.toClient m client.socketDescriptor)
      else none))
      = (cs.filter (fun client => client.mode == 1 && client.Sender == s)).map
          (fun client => Effect.toClient m client.socketDescriptor) := by
  induction cs with
  | nil => rfl
  | cons a l ih =>
    by_cases h1 : a.Sender = s <;> by_cases h2 : a.mode = 1 <;>
      simp [List.filterMap_cons, List.filter_cons, h1, h2, ih]

/-- C1: publishing text t under sender id s with separator flag p
composes the outbound text "s: t", prepending the one-character line
separator LF when p is set, and delivers it to exactly the clients
whose mode is spying (mode = 1) and whose subscribed sender equals s,
in client-list order; the sender registry is never consulted, so
publishing under an unregistered id reaches exactly its (zero)
subscribers. -/
theorem postMessage_routing (st : MCState) (t s : String) (p : Bool) :
    postMessage st t s p
      = (st.clients.filter (fun client => client.mode == 1 && client.Sender == s)).map
          (fun client => Effect.toClient
            (if p then LF ++ (s ++ ": " ++ t) else s ++ ": " ++ t)
            client.socketDescriptor)
    ∧ (∀ reg : List String,
        postMessage { st with senders := reg } t s p = postMessage st t s p)
    ∧ LF.length = 1 := by
  refine ⟨?_, fun reg => rfl, rfl⟩
  unfold postMessage processMessage
  exact filterMap_deliver st.clients _ s

/-- C2 (failing input): an empty command line makes the dispatcher read
the first element of an empty token list, a whitespace-only line does
the same, and a tab line reaches the at-sign test which reads the
first character of an empty trimmed string; each is an out-of-bounds
access, modelled as none, instead of the carriage-return handling the
claim requires. -/
theorem processCommand_empty_line_oob (st : MCState) (sd : Int) :
    processCommand st "" sd = none
    ∧ processCommand st " " sd = none
    ∧ processCommand st "\t" sd = none :=
  ⟨rfl, rfl, rfl⟩

/-- C8: the lines "PING", "Ping" and "ping" each produce exactly the
reply "pong" with no prompt appended and leave the state unchanged. -/
theorem ping_case_insensitive (st : MCState) (sd : Int) :
    processCommand st "PING" sd = some (st, [Effect.toClient "pong" sd])
    ∧ processCommand st "Ping" sd = some (st, [Effect.toClient "pong" sd])
    ∧ processCommand st "ping" sd = some (st, [Effect.toClient "pong" sd]) :=
  ⟨rfl, rfl, rfl⟩

/-- C3 (failing input): a command from a socket descriptor with no
session record makes getClient return the sentinel index -1, and both
the carriage-return branch and a successful spy branch pass that
sentinel straight to QList::replace without checking it, an
out-of-bounds write modelled as none. -/
theorem processCommand_unknown_session_oob (st : MCState) (sd : Int)
    (h : getClientAux st.clients sd 0 = none) :
    processCommand st "\r\n" sd = none
    ∧ (st.senders.contains "A" = true → processCommand st "spy A" sd = none) := by
  have hgc : getClient st sd = { defaultClient with index := -1 } := by
    rw [getClient, h, Option.getD_none]
  constructor
  · simp only [processCommand, hgc]
    rfl
  · intro hA
    have e : qTrim "A" = "A" := rfl
    simp only [processCommand, hgc]
    rw [show qSplitSkipEmpty "spy A" = ["spy", "A"] from rfl]
    simp only [e, hA]
    rfl

/-- C3 witness: a concrete state with no session for descriptor 5 and
with sender "A" registered reaches the out-of-bounds replace on both
inputs. -/
theorem processCommand_unknown_session_oob_witness :
    processCommand { clients := [], senders := ["A"] } "\r\n" 5 = none
    ∧ processCommand { clients := [], senders := ["A"] } "spy A" 5 = none :=
  ⟨(processCommand_unknown_session_oob { clients := [], senders := ["A"] } 5 rfl).1,
   (processCommand_unknown_session_oob { clients := [], senders := ["A"] } 5 rfl).2 rfl⟩

/-- C5: an existing session issuing a spy command with a registered
sender argument switches to spying that sender with no outbound text;
with an unregistered argument the session record is untouched and the
session receives exactly the not-found line followed by its prompt. -/
theorem spy_command (st : MCState) (sd : Int) (line s : String) (c : Client)
    (hsplit : qSplitSkipEmpty line = ["spy", s])
    (htrim : qTrim s = s)
    (hc : getClientAux st.clients sd 0 = some c) :
    (st.senders.contains s = true →
      processCommand st line sd
        = some ({ st with
                    clients :=
                      st.clients.set c.index.toNat ({ c with Sender := s, mode := 1 }) },
                []))
    ∧ (st.senders.contains s = false →
      processCommand st line sd
        = some (st, [Effect.toClient
            ("\nSender not found: " ++ s ++ ("\n" ++ c.name ++ ":> ")) sd])) := by
  have hgc : getClient st sd = c := getClient_of_found st sd c hc
  have hb := getClientAux_bounds st.clients sd 0 c hc
  have hprompt : getPrompt st sd = "\n" ++ c.name ++ ":> " := by
    simp only [getPrompt, hgc]
    rw [if_pos]
    omega
  constructor <;> intro hreg
  · have hrep := replaceAt_of_found st sd c ({ c with Sender := s, mode := 1 }) hc
    simp only [processCommand, hsplit, hgc, htrim, hreg, hrep]
    rfl
  · simp only [processCommand, hsplit, hgc, htrim, hreg, hprompt]
    rfl

/-- C5 witness: in a state with one session (descriptor 1) and only
sender "A" registered, spy A subscribes silently and spy ghost is
rejected with the exact error text and prompt. -/
theorem spy_command_witness :
    processCommand
        { clients := [{ socketDescriptor := 1, name := "Host-1", user := "Anonymous",
                        admin := 0, mode := 0, Sender := "", index := -1 }],
          senders := ["A"] } "spy A" 1
      = some ({ clients := [{ socketDescriptor := 1, name := "Host-1", user := "Anonymous",
                              admin := 0, mode := 1, Sender := "A", index := 0 }],
                senders := ["A"] }, [])
    ∧ processCommand
        { clients := [{ socketDescriptor := 1, name := "Host-1", user := "Anonymous",
                        admin := 0, mode := 0, Sender := "", index := -1 }],
          senders := ["A"] } "spy ghost" 1
      = some ({ clients := [{ socketDescriptor := 1, name := "Host-1", user := "Anonymous",
                              admin := 0, mode := 0, Sender := "", index := -1 }],
                senders := ["A"] },
              [Effect.toClient "\nSender not found: ghost\nHost-1:> " 1]) := by
  constructor
  · have h := (spy_command
      { clients := [{ socketDescriptor := 1, name := "Host-1", user := "Anonymous",
                      admin := 0, mode := 0, Sender := "", index := -1 }],
        senders := ["A"] } 1 "spy A" "A"
      { socketDescriptor := 1, name := "Host-1", user := "Anonymous",
        admin := 0, mode := 0, Sender := "", index := 0 }
      rfl rfl rfl).1 rfl
    exact h
  · have h := (spy_command
      { clients := [{ socketDescriptor := 1, name := "Host-1", user := "Anonymous",
                      admin := 0, mode := 0, Sender := "", index := -1 }],
        senders := ["A"] } 1 "spy ghost" "ghost"
      { socketDescriptor := 1, name := "Host-1", user := "Anonymous",
        admin := 0, mode := 0, Sender := "", index := 0 }
      rfl rfl rfl).2 rfl
    exact h

/-- Behaviour of the at-sign branch of processCommand when the
lower-cased, trimmed first token is the at-sign followed by a
registered sender id and the issuing session exists: the session
switches to spying that sender and the remaining tokens, rejoined and
trimmed, are forwarded to the sender. -/
theorem processCommand_at_found (st : MCState) (sd : Int) (line tok s : String)
    (toks : List String) (c : Client)
    (hsplit : qSplitSkipEmpty line = tok :: toks)
    (hat : qTrim (qToLower tok) = "@" ++ s)
    (hc : getClientAux st.clients sd 0 = some c)
    (hreg : st.senders.contains s = true) :
    processCommand st line sd
      = some ({ st with
                  clients :=
                    st.clients.set c.index.toNat ({ c with Sender := s, mode := 1 }) },
              [Effect.toSender (qTrim (String.intercalate " " toks)) s]) := by
  have hgc : getClient st sd = c := getClient_of_found st sd c hc
  have hrep := replaceAt_of_found st sd c ({ c with Sender := s, mode := 1 }) hc
  have hd : ("@" ++ s).data = '@' :: s.data := rfl
  have h1 : ¬(qToLower tok = "\r\n" ∨ qToLower tok = "\n") := by
    rintro (h | h) <;>
    · have he : qTrim (qToLower tok) = "" := by rw [h]; rfl
      rw [hat] at he
      exact at_append_ne s "" (by decide) he
  have h2 : qTrim (qToLower tok) ≠ "spy" := by
    rw [hat]; exact at_append_ne s "spy" (by decide)
  have h3 : qTrim (qToLower tok) ≠ "exit" := by
    rw [hat]; exact at_append_ne s "exit" (by decide)
  have h4 : qTrim (qToLower tok) ≠ "list" := by
    rw [hat]; exact at_append_ne s "list" (by decide)
  have h5 : qTrim (qToLower tok) ≠ "ping" := by
    rw [hat]; exact at_append_ne s "ping" (by decide)
  have h6 : qTrim (qToLower tok) ≠ "help" := by
    rw [hat]; exact at_append_ne s "help" (by decide)
  have hsender : (⟨List.drop 1 ('@' :: s.data)⟩ : String) = s := rfl
  simp only [processCommand, hsplit, hgc]
  rw [if_neg h1, if_neg h2, if_neg h3, if_neg h4, if_neg h5, if_neg h6, hat, hd]
  simp only [hsender, hreg, hrep]
  rfl

/-- C4 counterexample: with sender "A" registered (upper case) and
session 1 connected, the line "@A hello" does not subscribe the
session and emits no sender-directed command; the whole first token is
lower-cased, the registry lookup for "a" fails, and the session gets a
not-found reply naming "a". -/
theorem at_command_case_cex :
    processCommand
        { clients := [{ socketDescriptor := 1, name := "Host-1", user := "Anonymous",
                        admin := 0, mode := 0, Sender := "", index := -1 }],
          senders := ["A"] } "@A hello" 1
      = some ({ clients := [{ socketDescriptor := 1, name := "Host-1", user := "Anonymous",
                              admin := 0, mode := 0, Sender := "", index := -1 }],
                senders := ["A"] },
              [Effect.toClient "\nSender not found: a\nHost-1:> " 1])
    ∧ (getClient
        { clients := [{ socketDescriptor := 1, name := "Host-1", user := "Anonymous",
                        admin := 0, mode := 0, Sender := "", index := -1 }],
          senders := ["A"] } 1).mode = 0 :=
  ⟨rfl, rfl⟩

/-- C4 (amended): for a sender id s whose registered form survives
lower-casing, a line whose first token lower-cases and trims to the
at-sign followed by s, issued by an existing session, switches the
session to spying s and emits a sender-directed command event carrying
the remaining tokens (rejoined and trimmed) and s; the embedded sender
id is lower-cased together with the verb token before the registry
lookup. -/
theorem at_command_spying (st : MCState) (sd : Int) (line tok s : String)
    (toks : List String) (c : Client)
    (hsplit : qSplitSkipEmpty line = tok :: toks)
    (hat : qTrim (qToLower tok) = "@" ++ s)
    (hc : getClientAux st.clients sd 0 = some c)
    (hreg : st.senders.contains s = true) :
    processCommand st line sd
      = some ({ st with
                  clients :=
                    st.clients.set c.index.toNat ({ c with Sender := s, mode := 1 }) },
              [Effect.toSender (qTrim (String.intercalate " " toks)) s]) :=
  processCommand_at_found st sd line tok s toks c hsplit hat hc hreg

/-- C4 witness: session 1 exists and sender "a" is registered; the
line "@a hello x" subscribes session 1 to "a" and forwards the command
text "hello x" to sender "a". -/
theorem at_command_spying_witness :
    processCommand
        { clients := [{ socketDescriptor := 1, name := "Host-1", user := "Anonymous",
                        admin := 0, mode := 0, Sender := "", index := -1 }],
          senders := ["a"] } "@a hello x" 1
      = some ({ clients := [{ socketDescriptor := 1, name := "Host-1", user := "Anonymous",
                              admin := 0, mode := 1, Sender := "a", index := 0 }],
                senders := ["a"] },
              [Effect.toSender "hello x" "a"]) :=
  at_command_spying
    { clients := [{ socketDescriptor := 1, name := "Host-1", user := "Anonymous",
                    admin := 0, mode := 0, Sender := "", index := -1 }],
      senders := ["a"] } 1 "@a hello x" "@a" "a" ["hello", "x"]
    { socketDescriptor := 1, name := "Host-1", user := "Anonymous",
      admin := 0, mode := 0, Sender := "", index := 0 }
    rfl rfl rfl rfl

/-- C10 counterexample: with sender "B" registered (upper case) and
session 1 connected, the bare line "@B" does not subscribe the session
and emits no command event; the token is lower-cased and the lookup
for "b" fails. -/
theorem at_bare_case_cex :
    processCommand
        { clients := [{ socketDescriptor := 1, name := "Host-1", user := "Anonymous",
                        admin := 0, mode := 0, Sender := "", index := -1 }],
          senders := ["B"] } "@B" 1
      = some ({ clients := [{ socketDescriptor := 1, name := "Host-1", user := "Anonymous",
                              admin := 0, mode := 0, Sender := "", index := -1 }],
                senders := ["B"] },
              [Effect.toClient "\nSender not found: b\nHost-1:> " 1]) :=
  rfl

/-- C10 (amended): for a sender id s whose registered form survives
lower-casing, a bare at-sign line (the single token lower-cases and
trims to the at-sign followed by s, with no further tokens) from an
existing session still switches the session to spying s and emits a
sender-directed command event whose command text is the empty
string. -/
theorem at_bare_spying (st : MCState) (sd : Int) (line tok s : String) (c : Client)
    (hsplit : qSplitSkipEmpty line = [tok])
    (hat : qTrim (qToLower tok) = "@" ++ s)
    (hc : getClientAux st.clients sd 0 = some c)
    (hreg : st.senders.contains s = true) :
    processCommand st line sd
      = some ({ st with
                  clients :=
                    st.clients.set c.index.toNat ({ c with Sender := s, mode := 1 }) },
              [Effect.toSender "" s]) :=
  processCommand_at_found st sd line tok s [] c hsplit hat hc hreg

/-- C10 witness: session 1 exists and sender "b" is registered; the
bare line "@b" subscribes session 1 to "b" and forwards the empty
command text to sender "b". -/
theorem at_bare_spying_witness :
    processCommand
        { clients := [{ socketDescriptor := 1, name := "Host-1", user := "Anonymous",
                        admin := 0, mode := 0, Sender := "", index := -1 }],
          senders := ["b"] } "@b" 1
      = some ({ clients := [{ socketDescriptor := 1, name := "Host-1", user := "Anonymous",
                              admin := 0, mode := 1, Sender := "b", index := 0 }],
                senders := ["b"] },
              [Effect.toSender "" "b"]) :=
  at_bare_spying
    { clients := [{ socketDescriptor := 1, name := "Host-1", user := "Anonymous",
                    admin := 0, mode := 0, Sender := "", index := -1 }],
      senders := ["b"] } 1 "@b" "@b" "b"
    { socketDescriptor := 1, name := "Host-1", user := "Anonymous",
      admin := 0, mode := 0, Sender := "", index := 0 }
    rfl rfl rfl rfl

/-- C7 counterexample: split is on the space character only, so a tab
stays inside the first token; the unrecognized line with a tab inside
its first space-delimited token echoes that whole token, not the first
whitespace-delimited token. -/
theorem echo_whitespace_cex :
    processCommand
        { clients := [{ socketDescriptor := 1, name := "Host-1", user := "Anonymous",
                        admin := 0, mode := 0, Sender := "", index := -1 }],
          senders := [] } "foo\tx y" 1
      = some ({ clients := [{ socketDescriptor := 1, name := "Host-1", user := "Anonymous",
                              admin := 0, mode := 0, Sender := "", index := -1 }],
                senders := [] },
              [Effect.toClient "foo\tx" 1])
    ∧ "foo\tx" ≠ "foo" :=
  ⟨rfl, by decide⟩

/-- C7 (amended): an existing session submitting a line whose first
space-delimited token is not a recognized verb and does not start with
the at-sign receives back exactly that token lower-cased, with no
prompt appended and no state change; the arguments after it are
dropped from the echo.  Tokens are delimited by the space character
only, so other whitespace stays inside the echoed token. -/
theorem echo_unrecognized (st : MCState) (sd : Int) (line tok : String)
    (toks : List String) (c : Client) (c0 : Char) (cs : List Char)
    (hsplit : qSplitSkipEmpty line = tok :: toks)
    (h1 : qToLower tok ≠ "\r\n") (h2 : qToLower tok ≠ "\n")
    (h3 : qTrim (qToLower tok) ≠ "spy") (h4 : qTrim (qToLower tok) ≠ "exit")
    (h5 : qTrim (qToLower tok) ≠ "list") (h6 : qTrim (qToLower tok) ≠ "ping")
    (h7 : qTrim (qToLower tok) ≠ "help")
    (hdata : (qTrim (qToLower tok)).data = c0 :: cs)
    (hc0 : ¬(c0 = '@'))
    (hc : getClientAux st.clients sd 0 = some c) :
    processCommand st line sd = some (st, [Effect.toClient (qToLower tok) sd]) := by
  have hgc : getClient st sd = c := getClient_of_found st sd c hc
  have hb := getClientAux_bounds st.clients sd 0 c hc
  simp only [processCommand, hsplit, hgc]
  rw [if_neg (not_or.mpr ⟨h1, h2⟩), if_neg h3, if_neg h4, if_neg h5, if_neg h6,
    if_neg h7]
  simp only [hdata]
  rw [if_neg hc0, if_pos (show c.index > -1 by omega)]

/-- C7 witness: the unrecognized line "foo bar baz" from session 1
echoes exactly "foo" with no prompt and no state change. -/
theorem echo_unrecognized_witness :
    processCommand
        { clients := [{ socketDescriptor := 1, name := "Host-1", user := "Anonymous",
                        admin := 0, mode := 0, Sender := "", index := -1 }],
          senders := [] } "foo bar baz" 1
      = some ({ clients := [{ socketDescriptor := 1, name := "Host-1", user := "Anonymous",
                              admin := 0, mode := 0, Sender := "", index := -1 }],
                senders := [] },
              [Effect.toClient "foo" 1]) :=
  echo_unrecognized
    { clients := [{ socketDescriptor := 1, name := "Host-1", user := "Anonymous",
                    admin := 0, mode := 0, Sender := "", index := -1 }],
      senders := [] } 1 "foo bar baz" "foo" ["bar", "baz"]
    { socketDescriptor := 1, name := "Host-1", user := "Anonymous",
      admin := 0, mode := 0, Sender := "", index := 0 }
    'f' ['o', 'o'] rfl (by decide) (by decide) (by decide) (by decide) (by decide)
    (by decide) (by decide) rfl (by decide) rfl

/-- C6 counterexample: connecting session 42 with senders A and B
registered gives the session the default display name "Host-42", not
the textual form "42" of its id, and the list command then returns the
listing with prompt "\nHost-42:> ", not "\n42:> ". -/
theorem list_default_name_cex :
    (registerClient
        (registerMessageSender
          (registerMessageSender { clients := [], senders := [] } "A") "B") 42).1
      = { clients := [{ socketDescriptor := 42, name := "Host-42", user := "Anonymous",
                        admin := 0, mode := 0, Sender := "", index := -1 }],
          senders := ["A", "B"] }
    ∧ "Host-42" ≠ "42"
    ∧ processCommand
        { clients := [{ socketDescriptor := 42, name := "Host-42", user := "Anonymous",
                        admin := 0, mode := 0, Sender := "", index := -1 }],
          senders := ["A", "B"] } "list" 42
      = some ({ clients := [{ socketDescriptor := 42, name := "Host-42", user := "Anonymous",
                              admin := 0, mode := 0, Sender := "", index := -1 }],
                senders := ["A", "B"] },
              [Effect.toClient "\n   - A\n   - B\n\nHost-42:> " 42])
    ∧ "\n   - A\n   - B\n\nHost-42:> " ≠ "\n   - A\n   - B\n\n42:> " :=
  ⟨rfl, by decide, rfl, by decide⟩

/-- C6 (amended): a session connected under id 42 with the default
display name, which is "Host-" followed by the textual form of the id,
sending the list command while exactly senders A then B are registered,
receives exactly the listing in registration order followed by the
prompt built from the default display name. -/
theorem list_scenario :
    (registerClient
        (registerMessageSender
          (registerMessageSender { clients := [], senders := [] } "A") "B") 42).1
      = { clients := [{ socketDescriptor := 42, name := "Host-42", user := "Anonymous",
                        admin := 0, mode := 0, Sender := "", index := -1 }],
          senders := ["A", "B"] }
    ∧ processCommand
        { clients := [{ socketDescriptor := 42, name := "Host-42", user := "Anonymous",
                        admin := 0, mode := 0, Sender := "", index := -1 }],
          senders := ["A", "B"] } "list" 42
      = some ({ clients := [{ socketDescriptor := 42, name := "Host-42", user := "Anonymous",
                              admin := 0, mode := 0, Sender := "", index := -1 }],
                senders := ["A", "B"] },
              [Effect.toClient "\n   - A\n   - B\n\nHost-42:> " 42]) :=
  ⟨rfl, rfl⟩

/-- Absence characterization of a failed getClient scan: no client in
the list carries the descriptor. -/
theorem getClientAux_none (l : List Client) (sd : Int) (n : Nat)
    (h : getClientAux l sd n = none) :
    ∀ cl ∈ l, ¬(cl.socketDescriptor = sd) := by
  induction l generalizing n with
  | nil => intro cl hcl; cases hcl
  | cons a l ih =>
    intro cl hcl
    rw [getClientAux] at h
    by_cases ha : a.socketDescriptor = sd
    · rw [if_pos ha] at h; cases h
    · rw [if_neg ha] at h
      cases hcl with
      | head => exact ha
      | tail _ hmem => exact ih (n + 1) h cl hmem

/-- Appending one record to a list the getClient scan fails on: the
scan finds the appended record, at the position one past the end of
the original list. -/
theorem getClientAux_append_one (l : List Client) (r : Client) (sd : Int) (n : Nat)
    (h : getClientAux l sd n = none) (hr : r.socketDescriptor = sd) :
    getClientAux (l ++ [r]) sd n = some { r with index := ((n + l.length : Nat) : Int) } := by
  induction l generalizing n with
  | nil => simp [getClientAux, hr]
  | cons a l ih =>
    rw [getClientAux] at h
    by_cases ha : a.socketDescriptor = sd
    · rw [if_pos ha] at h; cases h
    · rw [if_neg ha] at h
      rw [List.cons_append, getClientAux, if_neg ha, ih (n + 1) h]
      congr 2
      simp
      omega

/-- C9: registering a sender name twice leaves exactly one occurrence
of it in the registry, with the other entries and their order
untouched, and adding a session twice for a descriptor with no session
record appends exactly one record carrying the defaults of the first
call, the second call being a no-op with no output. -/
theorem register_idempotent (st : MCState) (x : String) (sd : Int)
    (hx : st.senders.count x ≤ 1)
    (hsd : getClientAux st.clients sd 0 = none) :
    (registerMessageSender (registerMessageSender st x) x = registerMessageSender st x
      ∧ (registerMessageSender st x).senders.count x = 1
      ∧ ((registerMessageSender st x).senders = st.senders
          ∨ (registerMessageSender st x).senders = st.senders ++ [x]))
    ∧ ((registerClient st sd).1.clients
        = st.clients ++ [{ socketDescriptor := sd, name := "Host-" ++ toString sd,
                           user := "Anonymous", admin := 0, mode := 0, Sender := "",
                           index := -1 }]
      ∧ registerClient (registerClient st sd).1 sd = ((registerClient st sd).1, [])
      ∧ (registerClient (registerClient st sd).1 sd).1.clients.countP
          (fun cl => cl.socketDescriptor == sd) = 1) := by
  have hgc : getClient st sd = { defaultClient with index := -1 } := by
    rw [getClient, hsd, Option.getD_none]
  constructor
  · by_cases hmem : st.senders.contains x
    · have hst : registerMessageSender st x = st := by
        rw [registerMessageSender, if_pos hmem]
      rw [hst]
      refine ⟨by rw [registerMessageSender, if_pos hmem], ?_, Or.inl rfl⟩
      have hx1 : 0 < st.senders.count x :=
        List.count_pos_iff.mpr (by simpa using hmem)
      omega
    · have hst : registerMessageSender st x
          = { st with senders := st.senders ++ [x] } := by
        rw [registerMessageSender, if_neg hmem]
      have hcnt : st.senders.count x = 0 :=
        List.count_eq_zero.mpr (by simpa using hmem)
      rw [hst]
      refine ⟨?_, ?_, Or.inr rfl⟩
      · rw [registerMessageSender, if_pos]
        simp
      · simp [List.count_append, hcnt]
  · have hfirst : registerClient st sd
        = ({ st with
              clients := st.clients ++
                [{ socketDescriptor := sd, name := "Host-" ++ toString sd,
                   user := "Anonymous", admin := 0, mode := 0, Sender := "",
                   index := -1 }] },
           [Effect.toClient
              ("\n\nMessage Center 1.0\n\n" ++ getHelpString ++
                getPrompt
                  ({ st with
                      clients := st.clients ++
                        [{ socketDescriptor := sd, name := "Host-" ++ toString sd,
                           user := "Anonymous", admin := 0, mode := 0, Sender := "",
                           index := -1 }] }) sd) sd]) := by
      rw [registerClient]
      rw [hgc]
      rfl
    have happ := getClientAux_append_one st.clients
      { socketDescriptor := sd, name := "Host-" ++ toString sd,
        user := "Anonymous", admin := 0, mode := 0, Sender := "", index := -1 }
      sd 0 hsd rfl
    refine ⟨by rw [hfirst], ?_, ?_⟩
    · rw [hfirst]
      rw [registerClient]
      rw [show getClient
            ({ st with
                clients := st.clients ++
                  [{ socketDescriptor := sd, name := "Host-" ++ toString sd,
                     user := "Anonymous", admin := 0, mode := 0, Sender := "",
                     index := -1 }] }) sd
          = { socketDescriptor := sd, name := "Host-" ++ toString sd,
              user := "Anonymous", admin := 0, mode := 0, Sender := "",
              index := ((0 + st.clients.length : Nat) : Int) } from by
        rw [getClient, happ]; rfl]
      rw [if_neg (by simp)]
    · rw [hfirst]
      rw [registerClient]
      rw [show getClient
            ({ st with
                clients := st.clients ++
                  [{ socketDescriptor := sd, name := "Host-" ++ toString sd,
                     user := "Anonymous", admin := 0, mode := 0, Sender := "",
                     index := -1 }] }) sd
          = { socketDescriptor := sd, name := "Host-" ++ toString sd,
              user := "Anonymous", admin := 0, mode := 0, Sender := "",
              index := ((0 + st.clients.length : Nat) : Int) } from by
        rw [getClient, happ]; rfl]
      rw [if_neg (by simp)]
      have hzero : st.clients.countP (fun cl => cl.socketDescriptor == sd) = 0 := by
        rw [List.countP_eq_zero]
        intro cl hcl
        simpa using getClientAux_none st.clients sd 0 hsd cl hcl
      simp [List.countP_append, hzero]

/-- C9 witness: from the empty state, registering sender "A" twice and
adding session 7 twice each take effect exactly once. -/
theorem register_idempotent_witness :
    registerMessageSender (registerMessageSender { clients := [], senders := [] } "A") "A"
      = registerMessageSender { clients := [], senders := [] } "A"
    ∧ registerClient (registerClient { clients := [], senders := [] } 7).1 7
      = ((registerClient { clients := [], senders := [] } 7).1, []) :=
  ⟨(register_idempotent { clients := [], senders := [] } "A" 7 (by decide) rfl).1.1,
   (register_idempotent { clients := [], senders := [] } "A" 7 (by decide) rfl).2.2.1⟩

example : qSplitSkipEmpty "foo bar  baz" = ["foo", "bar", "baz"] := by decide

example : qSplitSkipEmpty "" = [] := by decide

example : qSplitSkipEmpty "   " = [] := by decide

example : qToLower "PiNg" = "ping" := by decide

example : qTrim "  a\t " = "a" := by decide

example :
    processCommand { clients := [], senders := [] } "" 3 = none := by decide

example :
    processCommand
      (registerClient { clients := [], senders := [] } 1).1 "PING" 1
      = some ((registerClient { clients := [], senders := [] } 1).1,
              [Effect.toClient "pong" 1]) := rfl

end SCDMsgCenter
